import Mathlib

/-!
Shallow embedding of the `azurerm` provider core (`src/azurerm/config.go`
and the MySQL Server resource adapter in the same file): the client factory
(`getArmClient`), the request-logging send decorator, the storage-account
helper functions, and the MySQL Server CRUD adapter, together with theorems
checking the natural-language specification against this embedding.

Modelling conventions:
* Go pointers become `Option`; dereferencing a `nil` pointer is modelled by
  a dedicated `panic`-style constructor of the result type.
* Go `(value..., error)` multiple returns become tuples with `Option String`
  for the `error` component (`none` = Go `nil` error).
* Go `int`/`int64` become `Int`; the Go `int32(x)` conversion is modelled by
  explicit wrapping.
* Remote SDK calls (`client.Get`, `client.CreateOrUpdate`, ...) become fields
  of an explicit record of functions passed to each adapter, so adapters stay
  executable and each remote outcome can be chosen per theorem.
-/

set_option autoImplicit false

namespace AzureRM

/-- Model of Go `strings.ToUpper` (ASCII level, as used for environment names). -/
def goToUpper (s : String) : String := ⟨s.data.map Char.toUpper⟩

/-- Model of Go `strings.ToLower`. -/
def goToLower (s : String) : String := ⟨s.data.map Char.toLower⟩

/-- Model of Go `strings.EqualFold` as used by the schema validation helpers. -/
def goEqualFold (a b : String) : Bool := goToLower a == goToLower b

/-- The Go conversion `int32(x)` on a Go `int` (64-bit), i.e. two's-complement
wrapping into `[-2^31, 2^31)`. -/
def int32wrap (n : Int) : Int := (n + 2 ^ 31) % 2 ^ 32 - 2 ^ 31

theorem goToUpper_append (a b : String) :
    goToUpper (a ++ b) = goToUpper a ++ goToUpper b := by
  cases a with
  | mk da =>
    cases b with
    | mk db =>
      exact congrArg String.mk (List.map_append Char.toUpper da db)

/-! ## Request logging decorator (`withRequestLogging`) -/

/-- A Go `*http.Request`, restricted to the fields the decorator touches. -/
structure HttpRequest where
  method : String
  url : String
  deriving DecidableEq

/-- A Go `*http.Response`, restricted to the fields the decorator touches. -/
structure HttpResponse where
  status : String
  body : String
  deriving DecidableEq

/-- A sender: Go `autorest.Sender.Do`, returning `(*http.Response, error)`. -/
def Sender : Type := HttpRequest → Option HttpResponse × Option String

/-- `withRequestLogging` from `config.go`: decorates a sender so that the
request and the response are dumped to the debug log, falling back to a
one-line summary when `httputil.DumpRequestOut` / `httputil.DumpResponse`
fails. The dump functions are external (`net/http/httputil`) and are passed
as parameters (`none` = dump error); the produced log lines are returned
alongside the sender's result instead of being written to a global logger. -/
def withRequestLogging (dumpRequestOut : HttpRequest → Option String)
    (dumpResponse : HttpResponse → Option String) (s : Sender) :
    HttpRequest → (Option HttpResponse × Option String) × List String :=
  fun r =>
    let requestLine :=
      match dumpRequestOut r with
      | some dump => "[DEBUG] AzureRM Request: \n" ++ dump ++ "\n"
      | none => "[DEBUG] AzureRM Request: " ++ r.method ++ " to " ++ r.url ++ "\n"
    let (resp, err) := s r
    let responseLine :=
      match resp with
      | some response =>
        match dumpResponse response with
        | some dump => "[DEBUG] AzureRM Response for " ++ r.url ++ ": \n" ++ dump ++ "\n"
        | none => "[DEBUG] AzureRM Response: " ++ response.status ++ " for " ++ r.url ++ "\n"
      | none => "[DEBUG] Request to " ++ r.url ++ " completed with no response"
    ((resp, err), [requestLine, responseLine])

/-! ## Storage account helpers -/

/-- One entry of `storage.AccountListKeysResult.Keys`: `Value *string`. -/
structure StorageAccountKey where
  value : Option String
  deriving DecidableEq

/-- `storage.AccountListKeysResult`: the embedded HTTP status code plus the
`Keys *[]AccountKey` field. -/
structure AccountListKeysResult where
  statusCode : Nat
  keys : Option (List StorageAccountKey)
  deriving DecidableEq

/-- Result of `getKeyForStorageAccount`, Go `(string, bool, error)`; `panic`
models an index-out-of-range or nil-pointer dereference. -/
inductive KeyResult where
  | ret (key : String) (accountExists : Bool) (err : Option String)
  | panic
  deriving DecidableEq

/-- `getKeyForStorageAccount` from `config.go`. The outcome of the remote
`storageServiceClient.ListKeys` call is passed in as `(result, error)`. -/
def getKeyForStorageAccount (listKeysOutcome : AccountListKeysResult × Option String)
    (storageAccountName : String) : KeyResult :=
  let (accountKeys, listErr) := listKeysOutcome
  if accountKeys.statusCode == 404 then
    .ret "" false none
  else
    match listErr with
    | some e =>
      .ret "" true (some ("Error retrieving keys for storage account \"" ++
        storageAccountName ++ "\": " ++ e))
    | none =>
      match accountKeys.keys with
      | none => .ret "" false (some ("Nil key returned for storage account \"" ++
          storageAccountName ++ "\""))
      | some keyList =>
        match keyList with
        | [] => .panic
        | firstKey :: _ =>
          match firstKey.value with
          | none => .panic
          | some v => .ret v true none

/-- Which storage data-plane service a helper hands back. -/
inductive StorageServiceKind where
  | blob
  | file
  | table
  | queue
  deriving DecidableEq

/-- Model of `mainStorage.Client` (external SDK), identified by the arguments
`mainStorage.NewClient` was given. -/
structure MainStorageClient where
  accountName : String
  accountKey : String
  endpointSuffix : String
  deriving DecidableEq

/-- A data-plane service client obtained from a `MainStorageClient` via
`GetBlobService` / `GetFileService` / `GetTableService` / `GetQueueService`. -/
structure StorageServiceClient where
  kind : StorageServiceKind
  client : MainStorageClient
  deriving DecidableEq

/-- Result of the four `get*ClientForStorageAccount` helpers:
Go `(*client, bool, error)`. -/
inductive ServiceClientResult where
  | ret (client : Option StorageServiceClient) (accountExists : Bool) (err : Option String)
  | panic
  deriving DecidableEq

/-- Shared body of the four storage service helpers from `config.go`
(they are textually identical up to the final `Get*Service` call).
`newClientErr` models whether the external `mainStorage.NewClient` call fails. -/
def getServiceClientForStorageAccount (kind : StorageServiceKind)
    (listKeysOutcome : AccountListKeysResult × Option String)
    (storageEndpointSuffix : String) (newClientErr : Option String)
    (storageAccountName : String) : ServiceClientResult :=
  match getKeyForStorageAccount listKeysOutcome storageAccountName with
  | .panic => .panic
  | .ret key accountExists keyErr =>
    match keyErr with
    | some e => .ret none accountExists (some e)
    | none =>
      if accountExists == false then
        .ret none false none
      else
        match newClientErr with
        | some e => .ret none true (some ("Error creating storage client for storage account \"" ++
            storageAccountName ++ "\": " ++ e))
        | none =>
          .ret (some ⟨kind, ⟨storageAccountName, key, storageEndpointSuffix⟩⟩) true none

/-- `getBlobStorageClientForStorageAccount` from `config.go`. -/
def getBlobStorageClientForStorageAccount
    (listKeysOutcome : AccountListKeysResult × Option String)
    (storageEndpointSuffix : String) (newClientErr : Option String)
    (storageAccountName : String) : ServiceClientResult :=
  getServiceClientForStorageAccount .blob listKeysOutcome storageEndpointSuffix
    newClientErr storageAccountName

/-- `getFileServiceClientForStorageAccount` from `config.go`. -/
def getFileServiceClientForStorageAccount
    (listKeysOutcome : AccountListKeysResult × Option String)
    (storageEndpointSuffix : String) (newClientErr : Option String)
    (storageAccountName : String) : ServiceClientResult :=
  getServiceClientForStorageAccount .file listKeysOutcome storageEndpointSuffix
    newClientErr storageAccountName

/-- `getTableServiceClientForStorageAccount` from `config.go`. -/
def getTableServiceClientForStorageAccount
    (listKeysOutcome : AccountListKeysResult × Option String)
    (storageEndpointSuffix : String) (newClientErr : Option String)
    (storageAccountName : String) : ServiceClientResult :=
  getServiceClientForStorageAccount .table listKeysOutcome storageEndpointSuffix
    newClientErr storageAccountName

/-- `getQueueServiceClientForStorageAccount` from `config.go`. -/
def getQueueServiceClientForStorageAccount
    (listKeysOutcome : AccountListKeysResult × Option String)
    (storageEndpointSuffix : String) (newClientErr : Option String)
    (storageAccountName : String) : ServiceClientResult :=
  getServiceClientForStorageAccount .queue listKeysOutcome storageEndpointSuffix
    newClientErr storageAccountName

/-! ## Environment resolution and the client factory (`getArmClient`) -/

/-- `azure.Environment` (external SDK), restricted to the endpoint fields
`config.go` reads. -/
structure AzureEnvironment where
  name : String
  activeDirectoryEndpoint : String
  resourceManagerEndpoint : String
  graphEndpoint : String
  storageEndpointSuffix : String
  deriving DecidableEq, Inhabited

def azurePublicCloud : AzureEnvironment :=
  { name := "AzurePublicCloud"
    activeDirectoryEndpoint := "https://login.microsoftonline.com/"
    resourceManagerEndpoint := "https://management.azure.com/"
    graphEndpoint := "https://graph.windows.net/"
    storageEndpointSuffix := "core.windows.net" }

def azureChinaCloud : AzureEnvironment :=
  { name := "AzureChinaCloud"
    activeDirectoryEndpoint := "https://login.chinacloudapi.cn/"
    resourceManagerEndpoint := "https://management.chinacloudapi.cn/"
    graphEndpoint := "https://graph.chinacloudapi.cn/"
    storageEndpointSuffix := "core.chinacloudapi.cn" }

def azureGermanCloud : AzureEnvironment :=
  { name := "AzureGermanCloud"
    activeDirectoryEndpoint := "https://login.microsoftonline.de/"
    resourceManagerEndpoint := "https://management.microsoftazure.de/"
    graphEndpoint := "https://graph.cloudapi.de/"
    storageEndpointSuffix := "core.cloudapi.de" }

def azureUSGovernmentCloud : AzureEnvironment :=
  { name := "AzureUSGovernmentCloud"
    activeDirectoryEndpoint := "https://login.microsoftonline.us/"
    resourceManagerEndpoint := "https://management.usgovcloudapi.net/"
    graphEndpoint := "https://graph.windows.net/"
    storageEndpointSuffix := "core.usgovcloudapi.net" }

/-- The table of named environments known to `azure.EnvironmentFromName`
(external SDK), keyed by the upper-case environment name. -/
def azureEnvironments : List (String × AzureEnvironment) :=
  [("AZURECHINACLOUD", azureChinaCloud),
   ("AZUREGERMANCLOUD", azureGermanCloud),
   ("AZUREPUBLICCLOUD", azurePublicCloud),
   ("AZUREUSGOVERNMENTCLOUD", azureUSGovernmentCloud)]

/-- `azure.EnvironmentFromName` (external SDK): upper-cases its argument and
looks it up in the fixed environment table, failing otherwise. -/
def environmentFromName (name : String) : Except String AzureEnvironment :=
  match azureEnvironments.lookup (goToUpper name) with
  | some env => .ok env
  | none => .error ("autorest/azure: There is no cloud environment matching the name \"" ++
      name ++ "\"")

/-- The environment-detection prologue of `getArmClient`: try the literal
name; on failure retry once with the name wrapped as `AZURE<name>CLOUD`;
if that fails too, return the first (outer) error. -/
def resolveEnvironment (name : String) : Except String AzureEnvironment :=
  match environmentFromName name with
  | .ok env => .ok env
  | .error envErr =>
    match environmentFromName ("AZURE" ++ name ++ "CLOUD") with
    | .ok env => .ok env
    | .error _ => .error envErr

/-- The provider `Config`, restricted to the fields `getArmClient` reads. -/
structure Config where
  subscriptionID : String
  clientID : String
  clientSecret : String
  tenantID : String
  environment : String
  deriving DecidableEq

/-- `adal.OAuthConfig` (external SDK), abstracted to its identifying data. -/
structure OAuthConfig where
  authorityEndpoint : String
  tenant : String
  deriving DecidableEq, Inhabited

/-- `adal.ServicePrincipalToken` (external SDK): determined by the OAuth
configuration, client credentials and target resource it was built from. -/
structure ServicePrincipalToken where
  oauth : OAuthConfig
  clientID : String
  clientSecret : String
  resource : String
  deriving DecidableEq, Inhabited

/-- Outcomes of the external `adal` calls made by `getArmClient`.
`newOAuthConfig` returns Go's `(*OAuthConfig, error)` pair;
`newServicePrincipalTokenErr` is `some e` when
`adal.NewServicePrincipalToken` for the given arguments fails (on success
the token is the canonical `ServicePrincipalToken` record of its inputs). -/
structure AdalEnv where
  newOAuthConfig : String → String → Option OAuthConfig × Option String
  newServicePrincipalTokenErr : OAuthConfig → String → String → String → Option String

/-- An autorest authorizer as configured by `getArmClient`. -/
inductive Authorizer where
  | bearer (spt : ServicePrincipalToken)
  | bearerCallback
  | zero
  deriving DecidableEq, Inhabited

/-- The sender attached to a handle; every handle in `getArmClient` uses
`autorest.CreateSender(withRequestLogging())`. -/
inductive SenderKind where
  | requestLogging
  | zero
  deriving DecidableEq, Inhabited

/-- `setUserAgent` from `config.go`: the fixed identifying string, built from
the (externally supplied) terraform version string. -/
def userAgentString (version : String) : String := "HashiCorp-Terraform-v" ++ version

/-- A configured SDK service client: base URI and scope identifier from its
`New...ClientWithBaseURI` constructor, plus the authorizer, sender and user
agent assigned by `getArmClient`. -/
structure ClientHandle where
  baseURI : Option String
  scope : Option String
  authorizer : Authorizer
  sender : SenderKind
  userAgent : String
  deriving DecidableEq, Inhabited

/-- The Go zero value of a client handle (a declared but never assigned
struct field). -/
def zeroClientHandle : ClientHandle :=
  { baseURI := none, scope := none, authorizer := .zero, sender := .zero, userAgent := "" }

/-- The four-line configuration ritual applied to every client in
`getArmClient`: `New...ClientWithBaseURI(baseURI, scope)` followed by
`setUserAgent`, `.Authorizer = ...`, `.Sender = CreateSender(withRequestLogging())`. -/
def configuredClient (baseURI : String) (scope : Option String) (auth : Authorizer)
    (userAgent : String) : ClientHandle :=
  { baseURI := some baseURI, scope := scope, authorizer := auth,
    sender := .requestLogging, userAgent := userAgent }

/-- `ArmClient` from `config.go`: the registry of all service client handles.
`netUsageClient` is declared in the source but never assigned by
`getArmClient`, hence it stays the Go zero value. -/
structure ArmClient where
  clientId : String
  tenantId : String
  subscriptionId : String
  environment : AzureEnvironment
  availSetClient : ClientHandle
  usageOpsClient : ClientHandle
  vmExtensionImageClient : ClientHandle
  vmExtensionClient : ClientHandle
  vmScaleSetClient : ClientHandle
  vmImageClient : ClientHandle
  vmClient : ClientHandle
  imageClient : ClientHandle
  diskClient : ClientHandle
  cosmosDBClient : ClientHandle
  appGatewayClient : ClientHandle
  ifaceClient : ClientHandle
  expressRouteCircuitClient : ClientHandle
  loadBalancerClient : ClientHandle
  localNetConnClient : ClientHandle
  publicIPClient : ClientHandle
  secGroupClient : ClientHandle
  secRuleClient : ClientHandle
  subnetClient : ClientHandle
  netUsageClient : ClientHandle
  vnetGatewayConnectionsClient : ClientHandle
  vnetGatewayClient : ClientHandle
  vnetClient : ClientHandle
  vnetPeeringsClient : ClientHandle
  routeTablesClient : ClientHandle
  routesClient : ClientHandle
  dnsClient : ClientHandle
  zonesClient : ClientHandle
  cdnProfilesClient : ClientHandle
  cdnEndpointsClient : ClientHandle
  containerRegistryClient : ClientHandle
  containerServicesClient : ClientHandle
  eventGridTopicsClient : ClientHandle
  eventHubClient : ClientHandle
  eventHubConsumerGroupClient : ClientHandle
  eventHubNamespacesClient : ClientHandle
  postgresqlConfigurationsClient : ClientHandle
  postgresqlDatabasesClient : ClientHandle
  postgresqlFirewallRulesClient : ClientHandle
  postgresqlServersClient : ClientHandle
  /-- Modelled from the spec: the MySQL servers client handle dereferenced by
  the MySQL Server adapter (`meta.(*ArmClient).mysqlServersClient`); its field
  declaration and its instantiation in `getArmClient` are not part of the
  sources under `src/`, so it is modelled per the spec as one more
  management-endpoint service client handle. -/
  mysqlServersClient : ClientHandle
  providers : ClientHandle
  resourceGroupClient : ClientHandle
  tagsClient : ClientHandle
  resourceFindClient : ClientHandle
  subscriptionsGroupClient : ClientHandle
  jobsClient : ClientHandle
  jobsCollectionsClient : ClientHandle
  storageServiceClient : ClientHandle
  storageUsageClient : ClientHandle
  deploymentsClient : ClientHandle
  redisClient : ClientHandle
  trafficManagerProfilesClient : ClientHandle
  trafficManagerEndpointsClient : ClientHandle
  searchServicesClient : ClientHandle
  serviceBusNamespacesClient : ClientHandle
  serviceBusQueuesClient : ClientHandle
  serviceBusTopicsClient : ClientHandle
  serviceBusSubscriptionsClient : ClientHandle
  keyVaultClient : ClientHandle
  keyVaultManagementClient : ClientHandle
  sqlDatabasesClient : ClientHandle
  sqlElasticPoolsClient : ClientHandle
  sqlFirewallRulesClient : ClientHandle
  sqlServersClient : ClientHandle
  appServicePlansClient : ClientHandle
  appInsightsClient : ClientHandle
  servicePrincipalsClient : ClientHandle
  appsClient : ClientHandle
  deriving DecidableEq, Inhabited

/-- `getArmClient` from `config.go`, returning Go's `(*ArmClient, error)`
pair. External `adal` outcomes and the terraform version string are passed
as parameters. -/
def getArmClient (c : Config) (adal : AdalEnv) (tfVersion : String) :
    Option ArmClient × Option String :=
  match resolveEnvironment c.environment with
  | .error envErr => (none, some envErr)
  | .ok env =>
    match adal.newOAuthConfig env.activeDirectoryEndpoint c.tenantID with
    | (_, some e) => (none, some e)
    | (oauthConfigPtr, none) =>
      match oauthConfigPtr with
      | none => (none, some ("Unable to configure OAuthConfig for tenant " ++ c.tenantID))
      | some oauthConfig =>
        let endpoint := env.resourceManagerEndpoint
        match adal.newServicePrincipalTokenErr oauthConfig c.clientID c.clientSecret endpoint with
        | some e => (none, some e)
        | none =>
          let auth := Authorizer.bearer ⟨oauthConfig, c.clientID, c.clientSecret, endpoint⟩
          let graphEndpoint := env.graphEndpoint
          match adal.newServicePrincipalTokenErr oauthConfig c.clientID c.clientSecret graphEndpoint with
          | some e => (none, some e)
          | none =>
            let graphAuth := Authorizer.bearer ⟨oauthConfig, c.clientID, c.clientSecret, graphEndpoint⟩
            let keyVaultAuth := Authorizer.bearerCallback
            let ua := userAgentString tfVersion
            let mgmt : ClientHandle := configuredClient endpoint (some c.subscriptionID) auth ua
            (some
              { clientId := c.clientID
                tenantId := c.tenantID
                subscriptionId := c.subscriptionID
                environment := env
                availSetClient := mgmt
                usageOpsClient := mgmt
                vmExtensionImageClient := mgmt
                vmExtensionClient := mgmt
                vmScaleSetClient := mgmt
                vmImageClient := mgmt
                vmClient := mgmt
                imageClient := mgmt
                diskClient := mgmt
                cosmosDBClient := mgmt
                appGatewayClient := mgmt
                ifaceClient := mgmt
                expressRouteCircuitClient := mgmt
                loadBalancerClient := mgmt
                localNetConnClient := mgmt
                publicIPClient := mgmt
                secGroupClient := mgmt
                secRuleClient := mgmt
                subnetClient := mgmt
                netUsageClient := zeroClientHandle
                vnetGatewayConnectionsClient := mgmt
                vnetGatewayClient := mgmt
                vnetClient := mgmt
                vnetPeeringsClient := mgmt
                routeTablesClient := mgmt
                routesClient := mgmt
                dnsClient := mgmt
                zonesClient := mgmt
                cdnProfilesClient := mgmt
                cdnEndpointsClient := mgmt
                containerRegistryClient := mgmt
                containerServicesClient := mgmt
                eventGridTopicsClient := mgmt
                eventHubClient := mgmt
                eventHubConsumerGroupClient := mgmt
                eventHubNamespacesClient := mgmt
                postgresqlConfigurationsClient := mgmt
                postgresqlDatabasesClient := mgmt
                postgresqlFirewallRulesClient := mgmt
                postgresqlServersClient := mgmt
                mysqlServersClient := mgmt
                providers := mgmt
                resourceGroupClient := mgmt
                tagsClient := mgmt
                resourceFindClient := mgmt
                subscriptionsGroupClient := configuredClient endpoint none auth ua
                jobsClient := mgmt
                jobsCollectionsClient := mgmt
                storageServiceClient := mgmt
                storageUsageClient := mgmt
                deploymentsClient := mgmt
                redisClient := mgmt
                trafficManagerProfilesClient := mgmt
                trafficManagerEndpointsClient := mgmt
                searchServicesClient := mgmt
                serviceBusNamespacesClient := mgmt
                serviceBusQueuesClient := mgmt
                serviceBusTopicsClient := mgmt
                serviceBusSubscriptionsClient := mgmt
                keyVaultClient := mgmt
                keyVaultManagementClient :=
                  { baseURI := none, scope := none, authorizer := keyVaultAuth,
                    sender := .requestLogging, userAgent := ua }
                sqlDatabasesClient := mgmt
                sqlElasticPoolsClient := mgmt
                sqlFirewallRulesClient := mgmt
                sqlServersClient := mgmt
                appServicePlansClient := mgmt
                appInsightsClient := mgmt
                servicePrincipalsClient := configuredClient graphEndpoint (some c.tenantID) graphAuth ua
                appsClient := mgmt },
             none)

/-- The conjunction of fallible steps in `getArmClient` (environment
resolution, OAuth configuration, the management-audience and the
directory-audience token exchanges). -/
def armClientStepsOk (c : Config) (adal : AdalEnv) : Bool :=
  match resolveEnvironment c.environment with
  | .error _ => false
  | .ok env =>
    match adal.newOAuthConfig env.activeDirectoryEndpoint c.tenantID with
    | (_, some _) => false
    | (none, none) => false
    | (some oauthConfig, none) =>
      (adal.newServicePrincipalTokenErr oauthConfig c.clientID c.clientSecret
        env.resourceManagerEndpoint).isNone &&
      (adal.newServicePrincipalTokenErr oauthConfig c.clientID c.clientSecret
        env.graphEndpoint).isNone

/-! ## Azure resource ID parsing -/

/-- A parsed Azure resource ID. -/
structure ResourceID where
  subscriptionID : String
  resourceGroup : String
  path : List (String × String)
  deriving DecidableEq

/-- Split a character list at every `/` (model of Go `strings.Split` on
`"/"`, written structurally so it evaluates). -/
def splitCharsOnSlash : List Char → List (List Char)
  | [] => [[]]
  | c :: rest =>
    let groups := splitCharsOnSlash rest
    if c = '/' then [] :: groups
    else
      match groups with
      | [] => [[c]]
      | g :: gs => (c :: g) :: gs

/-- The non-empty slash-separated components of a resource ID string. -/
def idComponents (id : String) : List String :=
  ((splitCharsOnSlash id.data).map (fun cs => String.mk cs)).filter (fun s => s ≠ "")

/-- Group a list of path components into consecutive key/value pairs,
failing on an odd number of components. -/
def pairComponents : List String → Option (List (String × String))
  | [] => some []
  | [_] => none
  | k :: v :: rest => (pairComponents rest).map (fun ps => (k, v) :: ps)

/-- Modelled from the spec: `parseAzureResourceID` (its definition is not
under `src/`; §6 of the spec describes the identifier as a slash-delimited
path encoding subscription, resource group, provider namespace, resource
type and name, parsed into named path segments, malformed input being a
hard parse error). -/
def parseAzureResourceID (id : String) : Except String ResourceID :=
  match pairComponents (idComponents id) with
  | none => .error ("The number of path segments is not divisible by 2 in \"" ++ id ++ "\"")
  | some pairs =>
    match pairs.lookup "subscriptions", pairs.lookup "resourceGroups" with
    | some sub, some rg => .ok { subscriptionID := sub, resourceGroup := rg, path := pairs }
    | _, _ => .error ("Unable to parse resource ID \"" ++ id ++ "\"")

/-! ## MySQL Server adapter: data model -/

/-- One element of the declarative `sku` set: `{name, capacity, tier}`. -/
structure MySqlSkuConfig where
  name : String
  capacity : Int
  tier : String
  deriving DecidableEq

/-- The declarative resource state (`*schema.ResourceData`) of an
`azurerm_mysql_server`, with one field per schema attribute plus the state
identifier. -/
structure MySqlServerData where
  id : String
  name : String
  location : String
  resource_group_name : String
  sku : List MySqlSkuConfig
  administrator_login : String
  administrator_login_password : String
  version : String
  storage_mb : Int
  ssl_enforcement : String
  fqdn : String
  tags : List (String × String)
  deriving DecidableEq

/-- `mysql.Sku` (wire): `Name *string`, `Capacity *int32`, `Tier SkuTier`,
`Size *string`. -/
structure MySqlWireSku where
  name : Option String
  capacity : Option Int
  tier : String
  size : Option String
  deriving DecidableEq

/-- `mysql.ServerPropertiesForCreate`. The two administrator fields exist on
the wire type; the create path of the source leaves them unset (commented
out behind a `TODO`). -/
structure ServerPropertiesForCreate where
  version : String
  storageMB : Option Int
  sslEnforcement : String
  administratorLogin : Option String
  administratorLoginPassword : Option String
  deriving DecidableEq

/-- `mysql.ServerForCreate`. -/
structure ServerForCreate where
  location : Option String
  sku : Option MySqlWireSku
  properties : ServerPropertiesForCreate
  tags : List (String × String)
  deriving DecidableEq

/-- `mysql.ServerUpdateParametersProperties` (this wire shape has no
administrator-login field, only the password). -/
structure ServerUpdateParametersProperties where
  sslEnforcement : String
  storageMB : Option Int
  version : String
  administratorLoginPassword : Option String
  deriving DecidableEq

/-- `mysql.ServerUpdateParameters`. -/
structure ServerUpdateParameters where
  sku : Option MySqlWireSku
  properties : ServerUpdateParametersProperties
  tags : List (String × String)
  deriving DecidableEq

/-- `mysql.Server` as returned by `client.Get`: the embedded HTTP status
code plus the wire fields the adapter reads. -/
structure MySqlServerResponse where
  statusCode : Nat
  id : Option String
  name : Option String
  location : Option String
  version : String
  storageMB : Option Int
  sslEnforcement : String
  administratorLogin : Option String
  sku : Option MySqlWireSku
  tags : List (String × String)
  fullyQualifiedDomainName : Option String
  deriving DecidableEq

/-- The remote `mysql.ServersClient`, one function per SDK call the adapter
makes. The long-running `CreateOrUpdate` / `Update` / `Delete` calls are
modelled by the error eventually received from their completion channel
(`none` = the wait ended without error). -/
structure MySqlRemote where
  createOrUpdate : String → String → ServerForCreate → Option String
  update : String → String → ServerUpdateParameters → Option String
  get : String → String → MySqlServerResponse × Option String
  delete : String → String → Option String

/-- Outcome of one adapter invocation on declarative state `d`:
`ok` = returned `nil` with the (possibly mutated) state, `err` = returned an
error, `panic` = a nil-pointer dereference / out-of-range index in the
source. -/
inductive RunResult where
  | ok (d : MySqlServerData)
  | err (d : MySqlServerData) (msg : String)
  | panic (d : MySqlServerData)
  deriving DecidableEq

/-! ## MySQL Server adapter: expand / flatten -/

/-- `expandMySQLServerSku` from the source: reads `sku[0]` (`none` models the
index panic on an empty set) and builds the wire SKU; `Capacity` goes through
Go's `int32(...)` conversion and `Size` is `strconv.Itoa(storageMB)`. -/
def expandMySQLServerSku (skus : List MySqlSkuConfig) (storageMB : Int) :
    Option MySqlWireSku :=
  match skus with
  | [] => none
  | sku :: _ =>
    some { name := some sku.name
           capacity := some (int32wrap sku.capacity)
           tier := sku.tier
           size := some (toString storageMB) }

/-- `flattenAndSetMySQLServerSku` from the source: dereferences `resp.Name`
and `resp.Capacity` (and the `resp` SKU pointer itself) and stores the
single-element `sku` list back into the declarative state; `none` models the
nil-pointer panic. -/
def flattenAndSetMySQLServerSku (d : MySqlServerData) (resp : Option MySqlWireSku) :
    Option MySqlServerData :=
  match resp with
  | none => none
  | some wireSku =>
    match wireSku.name, wireSku.capacity with
    | some n, some cap =>
      some { d with sku := [{ name := n, capacity := cap, tier := wireSku.tier }] }
    | _, _ => none

/-- Modelled from the spec: `azureRMNormalizeLocation` (not under `src/`);
per §4.2 a case-insensitive region-name canonicalization (lower-case,
spaces stripped). -/
def azureRMNormalizeLocation (s : String) : String :=
  goToLower ⟨s.data.filter (fun c => c ≠ ' ')⟩

/-! ## MySQL Server adapter: CRUD -/

/-- `resourceArmMySqlServerRead` from the source: parse the state ID, `Get`
the server; on a failed `Get` a 404 status clears the ID and returns `nil`,
any other failure returns an error naming the server; on success the wire
fields are flattened back into the declarative state. -/
def resourceArmMySqlServerRead (d : MySqlServerData) (remote : MySqlRemote) : RunResult :=
  match parseAzureResourceID d.id with
  | .error e => .err d e
  | .ok rid =>
    let resGroup := rid.resourceGroup
    let name := (rid.path.lookup "servers").getD ""
    let (resp, getErr) := remote.get resGroup name
    match getErr with
    | some e =>
      if resp.statusCode == 404 then
        .ok { d with id := "" }
      else
        .err d ("Error making Read request on Azure MySQL Server " ++ name ++ ": " ++ e)
    | none =>
      match resp.location with
      | none => .panic d
      | some loc =>
        match resp.storageMB with
        | none => .panic d
        | some storageMB =>
          match flattenAndSetMySQLServerSku d resp.sku with
          | none => .panic d
          | some dSku =>
            .ok { dSku with
                  name := resp.name.getD ""
                  resource_group_name := resGroup
                  location := azureRMNormalizeLocation loc
                  administrator_login := resp.administratorLogin.getD ""
                  version := resp.version
                  storage_mb := storageMB
                  ssl_enforcement := resp.sslEnforcement
                  tags := resp.tags
                  fqdn := resp.fullyQualifiedDomainName.getD "" }

/-- The `mysql.ServerForCreate` payload built by
`resourceArmMySqlServerCreate`; the administrator login and password are NOT
set (commented out behind `TODO: fix me` in the source). `none` models the
panic inside `expandMySQLServerSku` on an empty `sku` set. -/
def mySqlServerCreateProperties (d : MySqlServerData) : Option ServerForCreate :=
  (expandMySQLServerSku d.sku d.storage_mb).map fun sku =>
    { location := some d.location
      sku := some sku
      properties :=
        { version := d.version
          storageMB := some d.storage_mb
          sslEnforcement := d.ssl_enforcement
          administratorLogin := none
          administratorLoginPassword := none }
      tags := d.tags }

/-- The `mysql.ServerUpdateParameters` payload built by
`resourceArmMySqlServerUpdate`; it sets `AdministratorLoginPassword` from
the declarative config. -/
def mySqlServerUpdateParameters (d : MySqlServerData) : Option ServerUpdateParameters :=
  (expandMySQLServerSku d.sku d.storage_mb).map fun sku =>
    { sku := some sku
      properties :=
        { sslEnforcement := d.ssl_enforcement
          storageMB := some d.storage_mb
          version := d.version
          administratorLoginPassword := some d.administrator_login_password }
      tags := d.tags }

/-- `resourceArmMySqlServerCreate` from the source: build the create payload,
wait for the long-running `CreateOrUpdate`, then `Get` the server; a `nil`
returned ID is an error naming the server and resource group; otherwise set
the state ID and delegate to `read`. -/
def resourceArmMySqlServerCreate (d : MySqlServerData) (remote : MySqlRemote) : RunResult :=
  match mySqlServerCreateProperties d with
  | none => .panic d
  | some properties =>
    match remote.createOrUpdate d.resource_group_name d.name properties with
    | some e => .err d e
    | none =>
      let (readResp, getErr) := remote.get d.resource_group_name d.name
      match getErr with
      | some e => .err d e
      | none =>
        match readResp.id with
        | none => .err d ("Cannot read MySQL Server " ++ d.name ++ " (resource group " ++
            d.resource_group_name ++ ") ID")
        | some newId => resourceArmMySqlServerRead { d with id := newId } remote

/-- `resourceArmMySqlServerUpdate` from the source: same follow-up structure
as create, with the update payload and `client.Update`. -/
def resourceArmMySqlServerUpdate (d : MySqlServerData) (remote : MySqlRemote) : RunResult :=
  match mySqlServerUpdateParameters d with
  | none => .panic d
  | some properties =>
    match remote.update d.resource_group_name d.name properties with
    | some e => .err d e
    | none =>
      let (readResp, getErr) := remote.get d.resource_group_name d.name
      match getErr with
      | some e => .err d e
      | none =>
        match readResp.id with
        | none => .err d ("Cannot read MySQL Server " ++ d.name ++ " (resource group " ++
            d.resource_group_name ++ ") ID")
        | some newId => resourceArmMySqlServerRead { d with id := newId } remote

/-- `resourceArmMySqlServerDelete` from the source. -/
def resourceArmMySqlServerDelete (d : MySqlServerData) (remote : MySqlRemote) : RunResult :=
  match parseAzureResourceID d.id with
  | .error e => .err d e
  | .ok rid =>
    let resGroup := rid.resourceGroup
    let name := (rid.path.lookup "servers").getD ""
    match remote.delete resGroup name with
    | some e => .err d e
    | none => .ok d

/-! ## MySQL Server adapter: schema validation -/

/-- Modelled from the spec: `validation.StringInSlice` of the terraform
helper library (external): the value must equal one of the allowed strings,
case-insensitively when `ignoreCase` is set. -/
def stringInSlice (valid : List String) (ignoreCase : Bool) (v : String) : Bool :=
  valid.any (fun s => v == s || (ignoreCase && goEqualFold v s))

/-- Modelled from the spec: `validateIntInSlice` (its definition is not under
`src/`): the value must be one of the allowed integers. -/
def intInSlice (valid : List Int) (v : Int) : Bool :=
  valid.any (fun n => v == n)

/-- The per-field validators declared by the `resourceArmMySqlServer` schema,
with the literal allow-lists of the source (the `mysql.` SDK enum constants
spell `Basic`, `5.6`, `5.7`, `Disabled`, `Enabled`). -/
def validateMySqlServerConfig (d : MySqlServerData) : Bool :=
  d.sku.all (fun s =>
    stringInSlice ["MYSQLB50", "MYSQLB100"] true s.name &&
    intInSlice [50, 100] s.capacity &&
    stringInSlice ["Basic"] true s.tier) &&
  stringInSlice ["5.6", "5.7"] true d.version &&
  intInSlice [51200, 102400] d.storage_mb &&
  stringInSlice ["Disabled", "Enabled"] true d.ssl_enforcement

/-- Modelled from the spec: the host engine applies the schema validators at
the declarative boundary and only invokes the adapter's create when every
field passes (`Except.error` = rejected before any call is made). -/
def applyMySqlServerCreate (d : MySqlServerData) (remote : MySqlRemote) :
    Except String RunResult :=
  if validateMySqlServerConfig d then .ok (resourceArmMySqlServerCreate d remote)
  else .error "validation rejected configuration"

/-! ## Theorems -/

/-- C9: the request-logging decorator is transparent: for every request the
decorated sender returns exactly the `(response, error)` pair produced by
the underlying sender; when dumping the request (resp. the response) fails,
the corresponding log entry falls back to the one-line summary; no logging
outcome changes the returned result. -/
theorem withRequestLogging_transparent :
    ∀ (dumpRequestOut : HttpRequest → Option String)
      (dumpResponse : HttpResponse → Option String) (s : Sender) (r : HttpRequest),
      ((withRequestLogging dumpRequestOut dumpResponse s r).1 = s r) ∧
      (dumpRequestOut r = none →
        ((withRequestLogging dumpRequestOut dumpResponse s r).2).head? =
          some ("[DEBUG] AzureRM Request: " ++ r.method ++ " to " ++ r.url ++ "\n")) ∧
      (∀ resp, (s r).1 = some resp → dumpResponse resp = none →
        ((withRequestLogging dumpRequestOut dumpResponse s r).2).getLast? =
          some ("[DEBUG] AzureRM Response: " ++ resp.status ++ " for " ++ r.url ++ "\n")) := by
  intro dumpRequestOut dumpResponse s r
  rcases hs : s r with ⟨resp, err⟩
  refine ⟨?_, ?_, ?_⟩
  · cases hdr : dumpRequestOut r <;>
      cases resp <;>
        simp [withRequestLogging, hs, hdr]
  · intro hdr
    cases resp <;> simp [withRequestLogging, hs, hdr]
  · intro response hresp hdp
    cases resp with
    | none => simp at hresp
    | some resp0 =>
      obtain rfl : resp0 = response := by simpa using hresp
      cases hdr : dumpRequestOut r <;> simp [withRequestLogging, hs, hdr, hdp]

theorem withRequestLogging_transparent_witness :
    ((withRequestLogging (fun _ => none) (fun _ => none)
        (fun _ => (some ⟨"200 OK", "body"⟩, none)) ⟨"GET", "https://x"⟩).1 =
      (some ⟨"200 OK", "body"⟩, none)) ∧
    ((withRequestLogging (fun _ => none) (fun _ => none)
        (fun _ => (some ⟨"200 OK", "body"⟩, none)) ⟨"GET", "https://x"⟩).2.head? =
      some "[DEBUG] AzureRM Request: GET to https://x\n") ∧
    ((withRequestLogging (fun _ => none) (fun _ => none)
        (fun _ => (some ⟨"200 OK", "body"⟩, none)) ⟨"GET", "https://x"⟩).2.getLast? =
      some "[DEBUG] AzureRM Response: 200 OK for https://x\n") := by
  obtain ⟨h1, h2, h3⟩ := withRequestLogging_transparent (fun _ => none) (fun _ => none)
    (fun _ => (some ⟨"200 OK", "body"⟩, none)) ⟨"GET", "https://x"⟩
  exact ⟨h1, h2 rfl, h3 ⟨"200 OK", "body"⟩ rfl rfl⟩

/-- C10: `getKeyForStorageAccount` returns `("", false, nil)` on a 404
status; any other listing failure yields `exists=true` with an error naming
the account; a nil key list yields `("", false, error)`; otherwise the value
of the first key is returned, panicking on an empty key list; and the four
storage service helpers return `(nil, false, nil)` exactly when the account
is absent (404), passing any key error through unchanged. -/
theorem storageAccount_key_contract :
    ∀ (ak : AccountListKeysResult) (listErr : Option String) (name : String),
      (ak.statusCode = 404 →
        getKeyForStorageAccount (ak, listErr) name = .ret "" false none) ∧
      (ak.statusCode ≠ 404 → ∀ e, listErr = some e →
        getKeyForStorageAccount (ak, listErr) name =
          .ret "" true (some ("Error retrieving keys for storage account \"" ++ name ++
            "\": " ++ e))) ∧
      (ak.statusCode ≠ 404 → listErr = none → ak.keys = none →
        getKeyForStorageAccount (ak, listErr) name =
          .ret "" false (some ("Nil key returned for storage account \"" ++ name ++ "\""))) ∧
      (ak.statusCode ≠ 404 → listErr = none →
        ∀ firstKey rest v, ak.keys = some (firstKey :: rest) → firstKey.value = some v →
          getKeyForStorageAccount (ak, listErr) name = .ret v true none) ∧
      (ak.statusCode ≠ 404 → listErr = none → ak.keys = some [] →
        getKeyForStorageAccount (ak, listErr) name = .panic) ∧
      (∀ suffix newClientErr key accountExists e,
        getKeyForStorageAccount (ak, listErr) name = .ret key accountExists (some e) →
          getBlobStorageClientForStorageAccount (ak, listErr) suffix newClientErr name =
            .ret none accountExists (some e)) ∧
      (∀ suffix newClientErr,
        (getBlobStorageClientForStorageAccount (ak, listErr) suffix newClientErr name =
            .ret none false none ↔ ak.statusCode = 404) ∧
        (getFileServiceClientForStorageAccount (ak, listErr) suffix newClientErr name =
            .ret none false none ↔ ak.statusCode = 404) ∧
        (getTableServiceClientForStorageAccount (ak, listErr) suffix newClientErr name =
            .ret none false none ↔ ak.statusCode = 404) ∧
        (getQueueServiceClientForStorageAccount (ak, listErr) suffix newClientErr name =
            .ret none false none ↔ ak.statusCode = 404)) := by
  intro ak listErr name
  have hsvc : ∀ (kind : StorageServiceKind) (suffix : String) (newClientErr : Option String),
      getServiceClientForStorageAccount kind (ak, listErr) suffix newClientErr name =
          .ret none false none ↔ ak.statusCode = 404 := by
    intro kind suffix newClientErr
    by_cases h404 : ak.statusCode = 404
    · simp [getServiceClientForStorageAccount, getKeyForStorageAccount, h404]
    · cases hle : listErr with
      | some e =>
        simp [getServiceClientForStorageAccount, getKeyForStorageAccount, h404]
      | none =>
        cases hk : ak.keys with
        | none =>
          simp [getServiceClientForStorageAccount, getKeyForStorageAccount, h404, hle, hk]
        | some keyList =>
          cases keyList with
          | nil =>
            simp [getServiceClientForStorageAccount, getKeyForStorageAccount, h404, hle, hk]
          | cons firstKey rest =>
            cases hv : firstKey.value with
            | none =>
              simp [getServiceClientForStorageAccount, getKeyForStorageAccount,
                h404, hle, hk, hv]
            | some v =>
              cases newClientErr with
              | some e =>
                simp [getServiceClientForStorageAccount, getKeyForStorageAccount,
                  h404, hle, hk, hv]
              | none =>
                simp [getServiceClientForStorageAccount, getKeyForStorageAccount,
                  h404, hle, hk, hv]
  refine ⟨?_, ?_, ?_, ?_, ?_, ?_, ?_⟩
  · intro h404
    simp [getKeyForStorageAccount, h404]
  · intro h404 e hle
    simp [getKeyForStorageAccount, h404, hle]
  · intro h404 hle hk
    simp [getKeyForStorageAccount, h404, hle, hk]
  · intro h404 hle firstKey rest v hk hv
    simp [getKeyForStorageAccount, h404, hle, hk, hv]
  · intro h404 hle hk
    simp [getKeyForStorageAccount, h404, hle, hk]
  · intro suffix newClientErr key accountExists e hkey
    simp [getBlobStorageClientForStorageAccount, getServiceClientForStorageAccount, hkey]
  · intro suffix newClientErr
    exact ⟨hsvc .blob suffix newClientErr, hsvc .file suffix newClientErr,
      hsvc .table suffix newClientErr, hsvc .queue suffix newClientErr⟩

theorem storageAccount_key_contract_witness :
    (getKeyForStorageAccount (⟨404, none⟩, some "not found") "acct" = .ret "" false none) ∧
    (getKeyForStorageAccount (⟨200, some [⟨some "k1"⟩]⟩, none) "acct" = .ret "k1" true none) ∧
    (getBlobStorageClientForStorageAccount (⟨404, none⟩, some "not found") "core.windows.net"
        none "acct" = .ret none false none) := by
  obtain ⟨h404, _, _, hfirst, _, _, hiff⟩ :=
    storageAccount_key_contract ⟨404, none⟩ (some "not found") "acct"
  obtain ⟨_, _, _, hfirst2, _, _, _⟩ :=
    storageAccount_key_contract ⟨200, some [⟨some "k1"⟩]⟩ none "acct"
  exact ⟨h404 rfl, hfirst2 (by decide) rfl ⟨some "k1"⟩ [] "k1" rfl rfl,
    ((hiff "core.windows.net" none).1).2 rfl⟩

/-- A concrete accepted declarative configuration, used by witnesses. -/
def mySqlExampleData : MySqlServerData :=
  { id := "/subscriptions/S/resourceGroups/G/providers/Microsoft.DBforMySQL/servers/mysqldb"
    name := "mysqldb"
    location := "westus"
    resource_group_name := "G"
    sku := [{ name := "MYSQLB50", capacity := 50, tier := "Basic" }]
    administrator_login := "admin"
    administrator_login_password := "pw"
    version := "5.6"
    storage_mb := 51200
    ssl_enforcement := "Enabled"
    fqdn := ""
    tags := [] }

/-- C8 counterexample: on a concrete accepted configuration the create
payload has both administrator fields unset, and the update payload carries
the login password — the opposite of the claimed direction. -/
theorem mySqlServer_credentials_counterexample :
    (mySqlServerCreateProperties mySqlExampleData).map
        (fun p => (p.properties.administratorLogin, p.properties.administratorLoginPassword)) =
      some (none, none) ∧
    (mySqlServerUpdateParameters mySqlExampleData).map
        (fun u => u.properties.administratorLoginPassword) = some (some "pw") := by
  decide

/-- C8 (amended): the create path drops the administrator login and login
password (left unset behind a `TODO` in the source), while the update path
includes the administrator login password from the declarative config (the
update wire shape has no administrator-login field at all). -/
theorem mySqlServer_credentials_amended :
    ∀ d : MySqlServerData,
      (mySqlServerCreateProperties d).map
          (fun p => (p.properties.administratorLogin, p.properties.administratorLoginPassword)) =
        (mySqlServerCreateProperties d).map (fun _ => (none, none)) ∧
      (mySqlServerUpdateParameters d).map
          (fun u => u.properties.administratorLoginPassword) =
        (mySqlServerUpdateParameters d).map
          (fun _ => some d.administrator_login_password) := by
  intro d
  cases hs : d.sku with
  | nil =>
    constructor <;>
      simp [mySqlServerCreateProperties, mySqlServerUpdateParameters, expandMySQLServerSku, hs]
  | cons sku rest =>
    constructor <;>
      simp [mySqlServerCreateProperties, mySqlServerUpdateParameters, expandMySQLServerSku, hs]

/-- C3: for every declarative configuration accepted by create whose `sku`
set holds one element, flattening the wire SKU produced by expand restores
the declarative `name`, `capacity` and `tier` unchanged. -/
theorem mySqlServerSku_expand_flatten_roundtrip :
    ∀ (d : MySqlServerData) (cfg : MySqlSkuConfig), d.sku = [cfg] →
      validateMySqlServerConfig d = true →
      ∃ wireSku, expandMySQLServerSku d.sku d.storage_mb = some wireSku ∧
        ∀ dAny : MySqlServerData,
          (flattenAndSetMySQLServerSku dAny (some wireSku)).map (fun r => r.sku) =
            some [cfg] := by
  intro d cfg hsku hvalid
  obtain ⟨n, cap, t⟩ := cfg
  have hcap : cap = 50 ∨ cap = 100 := by
    rw [validateMySqlServerConfig, hsku] at hvalid
    simp only [List.all_cons, List.all_nil, Bool.and_eq_true, and_true] at hvalid
    simpa [intInSlice] using hvalid.1.1.1.1.2
  have hwrap : int32wrap cap = cap := by
    rcases hcap with rfl | rfl <;> decide
  rw [hsku]
  refine ⟨_, rfl, ?_⟩
  intro dAny
  simp [flattenAndSetMySQLServerSku, hwrap]

theorem mySqlServerSku_expand_flatten_roundtrip_witness :
    ∃ wireSku,
      expandMySQLServerSku mySqlExampleData.sku mySqlExampleData.storage_mb = some wireSku ∧
      ∀ dAny : MySqlServerData,
        (flattenAndSetMySQLServerSku dAny (some wireSku)).map (fun r => r.sku) =
          some [{ name := "MYSQLB50", capacity := 50, tier := "Basic" }] :=
  mySqlServerSku_expand_flatten_roundtrip mySqlExampleData
    { name := "MYSQLB50", capacity := 50, tier := "Basic" } rfl (by decide)

/-- C1: when `read` reaches the remote `Get` and that `Get` fails, a 404
status clears the local state identifier and returns no error, while any
other failure is surfaced as an error naming the server. -/
theorem mySqlServerRead_notFound_contract :
    ∀ (d : MySqlServerData) (remote : MySqlRemote) (rid : ResourceID)
      (resp : MySqlServerResponse) (e : String),
      parseAzureResourceID d.id = .ok rid →
      remote.get rid.resourceGroup ((rid.path.lookup "servers").getD "") = (resp, some e) →
      (resp.statusCode = 404 →
        resourceArmMySqlServerRead d remote = .ok { d with id := "" }) ∧
      (resp.statusCode ≠ 404 →
        resourceArmMySqlServerRead d remote =
          .err d ("Error making Read request on Azure MySQL Server " ++
            (rid.path.lookup "servers").getD "" ++ ": " ++ e)) := by
  intro d remote rid resp e hparse hget
  constructor
  · intro h404
    simp [resourceArmMySqlServerRead, hparse, hget, h404]
  · intro h404
    simp [resourceArmMySqlServerRead, hparse, hget, h404]

/-- A remote whose `Get` always reports a 404 failure. -/
def mySqlRemoteNotFound : MySqlRemote :=
  { createOrUpdate := fun _ _ _ => none
    update := fun _ _ _ => none
    get := fun _ _ =>
      ({ statusCode := 404, id := none, name := none, location := none, version := ""
         storageMB := none, sslEnforcement := "", administratorLogin := none, sku := none
         tags := [], fullyQualifiedDomainName := none }, some "404 not found")
    delete := fun _ _ => none }

theorem mySqlServerRead_notFound_contract_witness :
    resourceArmMySqlServerRead mySqlExampleData mySqlRemoteNotFound =
      .ok { mySqlExampleData with id := "" } :=
  (mySqlServerRead_notFound_contract mySqlExampleData mySqlRemoteNotFound
    { subscriptionID := "S", resourceGroup := "G"
      path := [("subscriptions", "S"), ("resourceGroups", "G"),
               ("providers", "Microsoft.DBforMySQL"), ("servers", "mysqldb")] }
    { statusCode := 404, id := none, name := none, location := none, version := ""
      storageMB := none, sslEnforcement := "", administratorLogin := none, sku := none
      tags := [], fullyQualifiedDomainName := none }
    "404 not found" rfl rfl).1 rfl

/-- C2: after a successful long-running completion, create and update both
issue a follow-up `Get`; a failed `Get` is surfaced as the returned error, a
`nil` returned identifier fails with the descriptive error naming the server
and its resource group, and otherwise the state identifier is set and the
call delegates to `read` — exactly one of these outcomes occurs. -/
theorem mySqlServerCreateUpdate_followup_contract :
    ∀ (d : MySqlServerData) (remote : MySqlRemote),
      (∀ props, mySqlServerCreateProperties d = some props →
        remote.createOrUpdate d.resource_group_name d.name props = none →
        ((∀ e, (remote.get d.resource_group_name d.name).2 = some e →
            resourceArmMySqlServerCreate d remote = .err d e) ∧
         ((remote.get d.resource_group_name d.name).2 = none →
           ((remote.get d.resource_group_name d.name).1.id = none →
              resourceArmMySqlServerCreate d remote =
                .err d ("Cannot read MySQL Server " ++ d.name ++ " (resource group " ++
                  d.resource_group_name ++ ") ID")) ∧
           (∀ i, (remote.get d.resource_group_name d.name).1.id = some i →
              resourceArmMySqlServerCreate d remote =
                resourceArmMySqlServerRead { d with id := i } remote)))) ∧
      (∀ params, mySqlServerUpdateParameters d = some params →
        remote.update d.resource_group_name d.name params = none →
        ((∀ e, (remote.get d.resource_group_name d.name).2 = some e →
            resourceArmMySqlServerUpdate d remote = .err d e) ∧
         ((remote.get d.resource_group_name d.name).2 = none →
           ((remote.get d.resource_group_name d.name).1.id = none →
              resourceArmMySqlServerUpdate d remote =
                .err d ("Cannot read MySQL Server " ++ d.name ++ " (resource group " ++
                  d.resource_group_name ++ ") ID")) ∧
           (∀ i, (remote.get d.resource_group_name d.name).1.id = some i →
              resourceArmMySqlServerUpdate d remote =
                resourceArmMySqlServerRead { d with id := i } remote)))) := by
  intro d remote
  rcases hg : remote.get d.resource_group_name d.name with ⟨readResp, getErr⟩
  constructor
  · intro props hprops hlro
    constructor
    · intro e hge
      have hge' : getErr = some e := hge
      subst hge'
      simp [resourceArmMySqlServerCreate, hprops, hlro, hg]
    · intro hge
      have hge' : getErr = none := hge
      subst hge'
      constructor
      · intro hid
        have hid' : readResp.id = none := hid
        simp [resourceArmMySqlServerCreate, hprops, hlro, hg, hid']
      · intro i hid
        have hid' : readResp.id = some i := hid
        simp [resourceArmMySqlServerCreate, hprops, hlro, hg, hid']
  · intro params hparams hlro
    constructor
    · intro e hge
      have hge' : getErr = some e := hge
      subst hge'
      simp [resourceArmMySqlServerUpdate, hparams, hlro, hg]
    · intro hge
      have hge' : getErr = none := hge
      subst hge'
      constructor
      · intro hid
        have hid' : readResp.id = none := hid
        simp [resourceArmMySqlServerUpdate, hparams, hlro, hg, hid']
      · intro i hid
        have hid' : readResp.id = some i := hid
        simp [resourceArmMySqlServerUpdate, hparams, hlro, hg, hid']

/-- A remote whose long-running operations succeed but whose `Get` returns a
response without an ID. -/
def mySqlRemoteNoId : MySqlRemote :=
  { createOrUpdate := fun _ _ _ => none
    update := fun _ _ _ => none
    get := fun _ _ =>
      ({ statusCode := 200, id := none, name := none, location := none, version := ""
         storageMB := none, sslEnforcement := "", administratorLogin := none, sku := none
         tags := [], fullyQualifiedDomainName := none }, none)
    delete := fun _ _ => none }

/-- The create payload of `mySqlExampleData`. -/
def mySqlExamplePayload : ServerForCreate :=
  { location := some "westus"
    sku := some { name := some "MYSQLB50", capacity := some (int32wrap 50), tier := "Basic"
                  size := some "51200" }
    properties :=
      { version := "5.6", storageMB := some 51200, sslEnforcement := "Enabled"
        administratorLogin := none, administratorLoginPassword := none }
    tags := [] }

theorem mySqlServerCreateUpdate_followup_contract_witness :
    resourceArmMySqlServerCreate mySqlExampleData mySqlRemoteNoId =
      .err mySqlExampleData "Cannot read MySQL Server mysqldb (resource group G) ID" :=
  (((mySqlServerCreateUpdate_followup_contract mySqlExampleData mySqlRemoteNoId).1
    mySqlExamplePayload (by decide) rfl).2 rfl).1 rfl

theorem stringInSlice_ci_iff (valid : List String) (v : String) :
    stringInSlice valid true v = true ↔ ∃ s ∈ valid, goToLower v = goToLower s := by
  simp only [stringInSlice, List.any_eq_true, Bool.or_eq_true, Bool.and_eq_true,
    goEqualFold, beq_iff_eq, true_and]
  constructor
  · rintro ⟨s, hs, h | h⟩
    · exact ⟨s, hs, by rw [h]⟩
    · exact ⟨s, hs, h⟩
  · rintro ⟨s, hs, h⟩
    exact ⟨s, hs, Or.inr h⟩

/-- C4: a declarative MySQL Server configuration passes the schema
validators exactly when every enum/numeric field lies in its fixed
allow-list (case-insensitively for the string-valued fields), and a
configuration failing validation is rejected before any network call: the
outcome of the validated create pipeline does not depend on the remote at
all. -/
theorem mySqlServerSchema_allowlist_validation :
    ∀ d : MySqlServerData,
      (validateMySqlServerConfig d = true ↔
        ((∀ s ∈ d.sku,
            (goToLower s.name = "mysqlb50" ∨ goToLower s.name = "mysqlb100") ∧
            (s.capacity = 50 ∨ s.capacity = 100) ∧
            goToLower s.tier = "basic") ∧
         (goToLower d.version = "5.6" ∨ goToLower d.version = "5.7") ∧
         (d.storage_mb = 51200 ∨ d.storage_mb = 102400) ∧
         (goToLower d.ssl_enforcement = "disabled" ∨ goToLower d.ssl_enforcement = "enabled"))) ∧
      (validateMySqlServerConfig d = false →
        ∀ r r' : MySqlRemote, applyMySqlServerCreate d r = applyMySqlServerCreate d r') := by
  intro d
  constructor
  · rw [validateMySqlServerConfig]
    simp only [Bool.and_eq_true, List.all_eq_true, stringInSlice_ci_iff, intInSlice,
      List.any_eq_true, List.mem_cons, List.mem_singleton, List.not_mem_nil, or_false,
      beq_iff_eq, List.mem_insert_iff]
    constructor
    · rintro ⟨⟨⟨hsku, hver⟩, hstor⟩, hssl⟩
      refine ⟨?_, ?_, ?_, ?_⟩
      · intro s hs
        obtain ⟨⟨hn, hc⟩, ht⟩ := hsku s hs
        refine ⟨?_, ?_, ?_⟩
        · rcases hn with ⟨x, hx, hnx⟩
          rcases hx with rfl | rfl
          · exact Or.inl (by simpa using hnx)
          · exact Or.inr (by simpa using hnx)
        · rcases hc with ⟨x, hx, hcx⟩
          rcases hx with rfl | rfl
          · exact Or.inl hcx
          · exact Or.inr hcx
        · rcases ht with ⟨x, hx, htx⟩
          rcases hx with rfl
          simpa using htx
      · rcases hver with ⟨x, hx, hvx⟩
        rcases hx with rfl | rfl
        · exact Or.inl (by simpa using hvx)
        · exact Or.inr (by simpa using hvx)
      · rcases hstor with ⟨x, hx, hsx⟩
        rcases hx with rfl | rfl
        · exact Or.inl hsx
        · exact Or.inr hsx
      · rcases hssl with ⟨x, hx, hex⟩
        rcases hx with rfl | rfl
        · exact Or.inl (by simpa using hex)
        · exact Or.inr (by simpa using hex)
    · rintro ⟨hsku, hver, hstor, hssl⟩
      refine ⟨⟨⟨?_, ?_⟩, ?_⟩, ?_⟩
      · intro s hs
        obtain ⟨hn, hc, ht⟩ := hsku s hs
        refine ⟨⟨?_, ?_⟩, ?_⟩
        · rcases hn with h | h
          · exact ⟨"MYSQLB50", Or.inl rfl, by simpa using h⟩
          · exact ⟨"MYSQLB100", Or.inr rfl, by simpa using h⟩
        · rcases hc with h | h
          · exact ⟨50, Or.inl rfl, h⟩
          · exact ⟨100, Or.inr rfl, h⟩
        · exact ⟨"Basic", rfl, by simpa using ht⟩
      · rcases hver with h | h
        · exact ⟨"5.6", Or.inl rfl, by simpa using h⟩
        · exact ⟨"5.7", Or.inr rfl, by simpa using h⟩
      · rcases hstor with h | h
        · exact ⟨51200, Or.inl rfl, h⟩
        · exact ⟨102400, Or.inr rfl, h⟩
      · rcases hssl with h | h
        · exact ⟨"Disabled", Or.inl rfl, by simpa using h⟩
        · exact ⟨"Enabled", Or.inr rfl, by simpa using h⟩
  · intro hinvalid r r'
    simp [applyMySqlServerCreate, hinvalid]

/-- A declarative configuration whose `storage_mb` is outside its
allow-list. -/
def mySqlRejectedData : MySqlServerData :=
  { mySqlExampleData with storage_mb := 999 }

theorem mySqlServerSchema_allowlist_validation_witness :
    applyMySqlServerCreate mySqlRejectedData mySqlRemoteNotFound =
      applyMySqlServerCreate mySqlRejectedData mySqlRemoteNoId :=
  (mySqlServerSchema_allowlist_validation mySqlRejectedData).2 (by decide)
    mySqlRemoteNotFound mySqlRemoteNoId

/-- C5: the factory resolves the environment name by an exact (SDK,
case-normalizing) lookup first; if that fails it retries exactly once with
the name wrapped in the fixed `AZURE...CLOUD` prefix/suffix — whose lookup
key is exactly the uppercased name in that wrapper; only when both lookups
fail does `getArmClient` fail, returning no registry together with the
(first) configuration error. -/
theorem clientFactory_environment_resolution :
    ∀ name : String,
      (environmentFromName ("AZURE" ++ name ++ "CLOUD") =
        (match azureEnvironments.lookup ("AZURE" ++ goToUpper name ++ "CLOUD") with
         | some env => .ok env
         | none => .error ("autorest/azure: There is no cloud environment matching the name \"" ++
             ("AZURE" ++ name ++ "CLOUD") ++ "\""))) ∧
      (∀ env, environmentFromName name = .ok env → resolveEnvironment name = .ok env) ∧
      (∀ e env, environmentFromName name = .error e →
        environmentFromName ("AZURE" ++ name ++ "CLOUD") = .ok env →
        resolveEnvironment name = .ok env) ∧
      (∀ e e2, environmentFromName name = .error e →
        environmentFromName ("AZURE" ++ name ++ "CLOUD") = .error e2 →
        resolveEnvironment name = .error e ∧
        ∀ (c : Config) (adal : AdalEnv) (tfVersion : String), c.environment = name →
          getArmClient c adal tfVersion = (none, some e)) := by
  intro name
  have hupper : goToUpper ("AZURE" ++ name ++ "CLOUD") =
      "AZURE" ++ goToUpper name ++ "CLOUD" := by
    rw [goToUpper_append, goToUpper_append]
    have h1 : goToUpper "AZURE" = "AZURE" := by decide
    have h2 : goToUpper "CLOUD" = "CLOUD" := by decide
    rw [h1, h2]
  refine ⟨?_, ?_, ?_, ?_⟩
  · rw [environmentFromName, hupper]
  · intro env h
    simp [resolveEnvironment, h]
  · intro e env h1 h2
    simp [resolveEnvironment, h1, h2]
  · intro e e2 h1 h2
    have hres : resolveEnvironment name = .error e := by
      simp [resolveEnvironment, h1, h2]
    refine ⟨hres, ?_⟩
    intro c adal tfVersion hc
    rw [getArmClient, hc, hres]

theorem clientFactory_environment_resolution_witness :
    resolveEnvironment "german" = .ok azureGermanCloud :=
  (clientFactory_environment_resolution "german").2.2.1
    "autorest/azure: There is no cloud environment matching the name \"german\""
    azureGermanCloud rfl rfl

/-- C6: `getArmClient` returns a registry exactly when environment
resolution, OAuth configuration and both token exchanges succeed; it returns
an error exactly when one of them fails; it never returns both a registry
and an error (no partially constructed registry escapes). -/
theorem getArmClient_atomic_outcome :
    ∀ (c : Config) (adal : AdalEnv) (tfVersion : String),
      ((getArmClient c adal tfVersion).1.isSome = true ↔ armClientStepsOk c adal = true) ∧
      ((getArmClient c adal tfVersion).2.isSome = true ↔ armClientStepsOk c adal = false) ∧
      ¬((getArmClient c adal tfVersion).1.isSome = true ∧
        (getArmClient c adal tfVersion).2.isSome = true) := by
  intro c adal tfVersion
  rcases hres : resolveEnvironment c.environment with e | env
  · simp [getArmClient, armClientStepsOk, hres]
  · rcases hoc : adal.newOAuthConfig env.activeDirectoryEndpoint c.tenantID with ⟨ocp, oce⟩
    cases oce with
    | some e => simp [getArmClient, armClientStepsOk, hres, hoc]
    | none =>
      cases ocp with
      | none => simp [getArmClient, armClientStepsOk, hres, hoc]
      | some oc =>
        cases hs1 : adal.newServicePrincipalTokenErr oc c.clientID c.clientSecret
            env.resourceManagerEndpoint with
        | some e => simp [getArmClient, armClientStepsOk, hres, hoc, hs1]
        | none =>
          cases hs2 : adal.newServicePrincipalTokenErr oc c.clientID c.clientSecret
              env.graphEndpoint with
          | some e => simp [getArmClient, armClientStepsOk, hres, hoc, hs1, hs2]
          | none => simp [getArmClient, armClientStepsOk, hres, hoc, hs1, hs2]

/-- A concrete credential set resolving to the public cloud via the wrapped
environment-name form. -/
def exampleConfig : Config :=
  { subscriptionID := "S", clientID := "CID", clientSecret := "secret"
    tenantID := "T", environment := "public" }

/-- A concrete adal environment in which every external call succeeds. -/
def exampleAdalEnv : AdalEnv :=
  { newOAuthConfig := fun endpoint tenant => (some ⟨endpoint, tenant⟩, none)
    newServicePrincipalTokenErr := fun _ _ _ _ => none }

theorem getArmClient_atomic_outcome_witness :
    (getArmClient exampleConfig exampleAdalEnv "0.10.8").1.isSome = true :=
  (getArmClient_atomic_outcome exampleConfig exampleAdalEnv "0.10.8").1.mpr (by decide)

/-- The per-family handle configuration the spec requires of a built
registry: every service client consumed by a resource adapter is populated
with the family's base endpoint (management, or directory for the graph
client), the matching bearer authorizer (callback-based for the key-vault
data-plane client), the request-logging sender, and the fixed
`HashiCorp-Terraform` user agent. -/
def registryHandlesConfigured (c : Config) (tfVersion : String) (env : AzureEnvironment)
    (oc : OAuthConfig) (reg : ArmClient) : Prop :=
  let ua := userAgentString tfVersion
  let auth := Authorizer.bearer ⟨oc, c.clientID, c.clientSecret, env.resourceManagerEndpoint⟩
  let graphAuth := Authorizer.bearer ⟨oc, c.clientID, c.clientSecret, env.graphEndpoint⟩
  let mgmt := configuredClient env.resourceManagerEndpoint (some c.subscriptionID) auth ua
  reg.clientId = c.clientID ∧
  reg.tenantId = c.tenantID ∧
  reg.subscriptionId = c.subscriptionID ∧
  reg.environment = env ∧
  reg.availSetClient = mgmt ∧
  reg.usageOpsClient = mgmt ∧
  reg.vmExtensionImageClient = mgmt ∧
  reg.vmExtensionClient = mgmt ∧
  reg.vmScaleSetClient = mgmt ∧
  reg.vmImageClient = mgmt ∧
  reg.vmClient = mgmt ∧
  reg.imageClient = mgmt ∧
  reg.diskClient = mgmt ∧
  reg.cosmosDBClient = mgmt ∧
  reg.appGatewayClient = mgmt ∧
  reg.ifaceClient = mgmt ∧
  reg.expressRouteCircuitClient = mgmt ∧
  reg.loadBalancerClient = mgmt ∧
  reg.localNetConnClient = mgmt ∧
  reg.publicIPClient = mgmt ∧
  reg.secGroupClient = mgmt ∧
  reg.secRuleClient = mgmt ∧
  reg.subnetClient = mgmt ∧
  reg.vnetGatewayConnectionsClient = mgmt ∧
  reg.vnetGatewayClient = mgmt ∧
  reg.vnetClient = mgmt ∧
  reg.vnetPeeringsClient = mgmt ∧
  reg.routeTablesClient = mgmt ∧
  reg.routesClient = mgmt ∧
  reg.dnsClient = mgmt ∧
  reg.zonesClient = mgmt ∧
  reg.cdnProfilesClient = mgmt ∧
  reg.cdnEndpointsClient = mgmt ∧
  reg.containerRegistryClient = mgmt ∧
  reg.containerServicesClient = mgmt ∧
  reg.eventGridTopicsClient = mgmt ∧
  reg.eventHubClient = mgmt ∧
  reg.eventHubConsumerGroupClient = mgmt ∧
  reg.eventHubNamespacesClient = mgmt ∧
  reg.postgresqlConfigurationsClient = mgmt ∧
  reg.postgresqlDatabasesClient = mgmt ∧
  reg.postgresqlFirewallRulesClient = mgmt ∧
  reg.postgresqlServersClient = mgmt ∧
  reg.mysqlServersClient = mgmt ∧
  reg.providers = mgmt ∧
  reg.resourceGroupClient = mgmt ∧
  reg.tagsClient = mgmt ∧
  reg.resourceFindClient = mgmt ∧
  reg.subscriptionsGroupClient = configuredClient env.resourceManagerEndpoint none auth ua ∧
  reg.jobsClient = mgmt ∧
  reg.jobsCollectionsClient = mgmt ∧
  reg.storageServiceClient = mgmt ∧
  reg.storageUsageClient = mgmt ∧
  reg.deploymentsClient = mgmt ∧
  reg.redisClient = mgmt ∧
  reg.trafficManagerProfilesClient = mgmt ∧
  reg.trafficManagerEndpointsClient = mgmt ∧
  reg.searchServicesClient = mgmt ∧
  reg.serviceBusNamespacesClient = mgmt ∧
  reg.serviceBusQueuesClient = mgmt ∧
  reg.serviceBusTopicsClient = mgmt ∧
  reg.serviceBusSubscriptionsClient = mgmt ∧
  reg.keyVaultClient = mgmt ∧
  reg.keyVaultManagementClient =
    { baseURI := none, scope := none, authorizer := .bearerCallback
      sender := .requestLogging, userAgent := ua } ∧
  reg.sqlDatabasesClient = mgmt ∧
  reg.sqlElasticPoolsClient = mgmt ∧
  reg.sqlFirewallRulesClient = mgmt ∧
  reg.sqlServersClient = mgmt ∧
  reg.appServicePlansClient = mgmt ∧
  reg.appInsightsClient = mgmt ∧
  reg.servicePrincipalsClient = configuredClient env.graphEndpoint (some c.tenantID) graphAuth ua ∧
  reg.appsClient = mgmt

/-- C7: every registry returned by `getArmClient` has one configured handle
per service family, each carrying the family's base endpoint, authorizer,
the request-logging sender and the fixed user agent; in particular the
MySQL servers client is such a populated field. -/
theorem getArmClient_handles_configured :
    ∀ (c : Config) (adal : AdalEnv) (tfVersion : String) (reg : ArmClient),
      (getArmClient c adal tfVersion).1 = some reg →
      ∃ env oc,
        resolveEnvironment c.environment = .ok env ∧
        (adal.newOAuthConfig env.activeDirectoryEndpoint c.tenantID).1 = some oc ∧
        registryHandlesConfigured c tfVersion env oc reg := by
  intro c adal tfVersion reg h
  rcases hres : resolveEnvironment c.environment with e | env
  · simp [getArmClient, hres] at h
  · rcases hoc : adal.newOAuthConfig env.activeDirectoryEndpoint c.tenantID with ⟨ocp, oce⟩
    cases oce with
    | some e => simp [getArmClient, hres, hoc] at h
    | none =>
      cases ocp with
      | none => simp [getArmClient, hres, hoc] at h
      | some oc =>
        cases hs1 : adal.newServicePrincipalTokenErr oc c.clientID c.clientSecret
            env.resourceManagerEndpoint with
        | some e => simp [getArmClient, hres, hoc, hs1] at h
        | none =>
          cases hs2 : adal.newServicePrincipalTokenErr oc c.clientID c.clientSecret
              env.graphEndpoint with
          | some e => simp [getArmClient, hres, hoc, hs1, hs2] at h
          | none =>
            simp only [getArmClient, hres, hoc, hs1, hs2, Option.some.injEq] at h
            subst h
            refine ⟨env, oc, rfl, by rw [hoc], ?_⟩
            rw [registryHandlesConfigured]
            repeat' apply And.intro
            all_goals rfl

/-- The registry built from the concrete example inputs. -/
def exampleRegistry : ArmClient :=
  ((getArmClient exampleConfig exampleAdalEnv "0.10.8").1).getD default

theorem getArmClient_handles_configured_witness :
    ∃ env oc,
      resolveEnvironment exampleConfig.environment = .ok env ∧
      (exampleAdalEnv.newOAuthConfig env.activeDirectoryEndpoint exampleConfig.tenantID).1 =
        some oc ∧
      registryHandlesConfigured exampleConfig "0.10.8" env oc exampleRegistry :=
  getArmClient_handles_configured exampleConfig exampleAdalEnv "0.10.8" exampleRegistry rfl

end AzureRM
